import Mathlib

/-!
Shallow embedding of the movielix API handlers (src/movielix/views.py).

The entity store is a record of lists of rows; each Django REST view method
becomes a Lean function from the store (plus actor id, path parameters and
request data) to a `Response` and, for mutating handlers, the new store.
Status codes mirror `rest_framework.status`; response bodies keep the
distinction between the `error` / `detail` / `message` keys used in views.py.
-/

namespace Movielix

/-- Modelled from the spec: the Movie record (models.py is not in src/) —
"title, metadata, `added_by` (owning User)"; metadata is represented by a
single `description` field. -/
structure Movie where
  id : Nat
  title : String
  description : String
  added_by : Nat
deriving Repr, DecidableEq

/-- Modelled from the spec: the Tag record — "label; many-to-many with
Collection"; the m:n association lives in `Store.tagCollections`. -/
structure Tag where
  id : Nat
  name : String
deriving Repr, DecidableEq

/-- Modelled from the spec: the Collection record — "belongs to exactly one
`user` (owner); `is_public` boolean gates read visibility". -/
structure Collection where
  id : Nat
  name : String
  user : Nat
  is_public : Bool
deriving Repr, DecidableEq

/-- Modelled from the spec: the Watchlist join record — "linking one
Collection to one Movie". -/
structure Watchlist where
  id : Nat
  collection_id : Nat
  movie_id : Nat
deriving Repr, DecidableEq

/-- Modelled from the spec: the MovieReview record — "belongs to one Movie
and one User", with rating/comment content fields. -/
structure MovieReview where
  id : Nat
  movie_id : Nat
  user : Nat
  rating : Nat
  comment : String
deriving Repr, DecidableEq

/-- Modelled from the spec: the Favorite record — "belongs to one User and
one Collection". -/
structure Favorite where
  id : Nat
  user : Nat
  collection : Nat
deriving Repr, DecidableEq

/-- Modelled from the spec: the auth User record (username, email,
credential). -/
structure UserRec where
  id : Nat
  username : String
  email : String
  password : String
deriving Repr, DecidableEq

/-- The entity store: one list of rows per entity, the Tag↔Collection m:n
join as a list of (tag id, collection id) pairs, and the id counter the
store assigns to newly created rows. -/
structure Store where
  movies : List Movie
  tags : List Tag
  collections : List Collection
  watchlists : List Watchlist
  reviews : List MovieReview
  favorites : List Favorite
  tagCollections : List (Nat × Nat)
  users : List UserRec
  nextId : Nat
deriving Repr, DecidableEq

/-- Status codes from `rest_framework.status`. -/
def HTTP_200_OK : Nat := 200
def HTTP_201_CREATED : Nat := 201
def HTTP_204_NO_CONTENT : Nat := 204
def HTTP_400_BAD_REQUEST : Nat := 400
def HTTP_403_FORBIDDEN : Nat := 403
def HTTP_404_NOT_FOUND : Nat := 404

/-- Response bodies, keeping the `error` / `detail` / `message` key the
handler uses, serialized entity payloads, and the token pair issued at
registration. -/
inductive Body where
  | empty
  | error (msg : String)
  | detail (msg : String)
  | message (msg : String)
  | errorList (msgs : List String)
  | movieData (m : Movie)
  | tagData (t : Tag)
  | collectionData (c : Collection)
  | collectionListData (l : List Collection)
  | reviewData (r : MovieReview)
  | watchlistData (w : Watchlist)
  | tokens (userId : Nat)
deriving Repr, DecidableEq

structure Response where
  body : Body
  status : Nat
deriving Repr, DecidableEq

/-- `get_object_or_404` failure: DRF renders `{"detail": "Not found."}`
with 404. -/
def notFoundResponse : Response := ⟨Body.detail "Not found.", HTTP_404_NOT_FOUND⟩

def findMovie (s : Store) (pk : Nat) : Option Movie :=
  s.movies.find? (fun m => m.id == pk)

def findTag (s : Store) (pk : Nat) : Option Tag :=
  s.tags.find? (fun t => t.id == pk)

def findCollection (s : Store) (pk : Nat) : Option Collection :=
  s.collections.find? (fun c => c.id == pk)

/-- Python truthiness of an optional integer field read with
`request.data.get(...)`: `None` and `0` are falsy. -/
def truthy : Option Nat → Bool
  | none => false
  | some n => n != 0

/-- Partial-update data for `MovieSerializer(..., partial=True)`:
`none` means the field was not supplied. -/
structure MoviePatch where
  title : Option String := none
  description : Option String := none
deriving Repr, DecidableEq

/-- Modelled from the spec: DRF partial-serializer save (serializers.py is
not in src/) — "Partial updates (PATCH semantics) merge only supplied
fields into the existing record; omitted fields are untouched." -/
def applyMoviePatch (m : Movie) (d : MoviePatch) : Movie :=
  { m with title := d.title.getD m.title,
           description := d.description.getD m.description }

/-- `MovieDetailView.patch`: resolve the movie (404 if absent), deny with
FORBIDDEN unless `movie.added_by == request.user`, else merge the partial
data and save. -/
def MovieDetailView.patch (s : Store) (actor pk : Nat) (d : MoviePatch) :
    Response × Store :=
  match findMovie s pk with
  | none => (notFoundResponse, s)
  | some movie =>
    if movie.added_by != actor then
      (⟨Body.error "You do not have permission to edit this movie.",
        HTTP_403_FORBIDDEN⟩, s)
    else
      let movie2 := applyMoviePatch movie d
      (⟨Body.movieData movie2, HTTP_200_OK⟩,
       { s with movies := s.movies.map (fun m => if m.id == pk then movie2 else m) })

/-- `MovieDetailView.delete`: resolve the movie (404 if absent), deny with
FORBIDDEN unless `movie.added_by == request.user`, else delete. -/
def MovieDetailView.delete (s : Store) (actor pk : Nat) : Response × Store :=
  match findMovie s pk with
  | none => (notFoundResponse, s)
  | some movie =>
    if movie.added_by != actor then
      (⟨Body.error "You do not have permission to delete this movie.",
        HTTP_403_FORBIDDEN⟩, s)
    else
      (⟨Body.empty, HTTP_204_NO_CONTENT⟩,
       { s with movies := s.movies.filter (fun m => !(m.id == pk)) })

/-- `CollectionDetailView.get`: resolve the collection (404 if absent),
deny with FORBIDDEN when the actor is not the owner and the collection is
not public, else serialize it. Read-only: the store is unchanged. -/
def CollectionDetailView.get (s : Store) (actor pk : Nat) : Response :=
  match findCollection s pk with
  | none => notFoundResponse
  | some collection =>
    if collection.user != actor && !collection.is_public then
      ⟨Body.detail "You do not have permission to view this collection.",
       HTTP_403_FORBIDDEN⟩
    else
      ⟨Body.collectionData collection, HTTP_200_OK⟩

/-- Partial-update data for `CollectionPatchSerializer(..., partial=True)`. -/
structure CollectionPatch where
  name : Option String := none
  is_public : Option Bool := none
deriving Repr, DecidableEq

/-- Modelled from the spec: DRF partial-serializer save for collections —
merge only supplied fields; omitted fields are untouched. -/
def applyCollectionPatch (c : Collection) (d : CollectionPatch) : Collection :=
  { c with name := d.name.getD c.name,
           is_public := d.is_public.getD c.is_public }

/-- `CollectionDetailView.patch`: resolve the collection (404 if absent),
deny with FORBIDDEN unless `collection.user == request.user`, else merge
the partial data and save. -/
def CollectionDetailView.patch (s : Store) (actor pk : Nat) (d : CollectionPatch) :
    Response × Store :=
  match findCollection s pk with
  | none => (notFoundResponse, s)
  | some collection =>
    if collection.user != actor then
      (⟨Body.error "You do not have permission to edit this collection.",
        HTTP_403_FORBIDDEN⟩, s)
    else
      let collection2 := applyCollectionPatch collection d
      (⟨Body.collectionData collection2, HTTP_200_OK⟩,
       { s with collections :=
           s.collections.map (fun c => if c.id == pk then collection2 else c) })

/-- Request data for `TagSerializer` (`none` = field not supplied). -/
structure TagData where
  name : Option String := none
deriving Repr, DecidableEq

/-- Modelled from the spec: DRF non-partial serializer validation
(serializers.py is not in src/) — `TagDetailView.patch` constructs
`TagSerializer(tag, data=request.data)` WITHOUT `partial=True`, so
`is_valid()` requires every writable field (the tag label) to be supplied;
a missing required field makes the serializer invalid. -/
def tagSerializerValid (d : TagData) : Bool := d.name.isSome

/-- `TagDetailView.patch`: resolve the tag (404 if absent); the serializer
is NOT constructed with `partial=True`, so validation requires the full
field set; on validity the supplied data is saved. -/
def TagDetailView.patch (s : Store) (pk : Nat) (d : TagData) : Response × Store :=
  match findTag s pk with
  | none => (notFoundResponse, s)
  | some tag =>
    if tagSerializerValid d then
      let tag2 : Tag := { tag with name := d.name.getD tag.name }
      (⟨Body.tagData tag2, HTTP_200_OK⟩,
       { s with tags := s.tags.map (fun t => if t.id == pk then tag2 else t) })
    else
      (⟨Body.errorList ["This field is required."], HTTP_400_BAD_REQUEST⟩, s)

/-- `TagDetailView.delete`: resolve the tag (404 if absent), clear its
Collection associations (`tag.collections.clear()`), then delete the tag. -/
def TagDetailView.delete (s : Store) (pk : Nat) : Response × Store :=
  match findTag s pk with
  | none => (notFoundResponse, s)
  | some _ =>
    let s1 := { s with tagCollections := s.tagCollections.filter (fun p => !(p.1 == pk)) }
    let s2 := { s1 with tags := s1.tags.filter (fun t => !(t.id == pk)) }
    (⟨Body.empty, HTTP_204_NO_CONTENT⟩, s2)

/-- `CollectionListView.get`: `Collection.objects.filter(user=request.user)`
— only the requesting actor's own collections, public or not. -/
def CollectionListView.get (s : Store) (actor : Nat) : Response :=
  ⟨Body.collectionListData (s.collections.filter (fun c => c.user == actor)),
   HTTP_200_OK⟩

/-- `PublicCollectionListView.get`:
`Collection.objects.filter(is_public=True)` — every public collection,
regardless of owner. -/
def PublicCollectionListView.get (s : Store) : Response :=
  ⟨Body.collectionListData (s.collections.filter (fun c => c.is_public)),
   HTTP_200_OK⟩

/-- `WatchlistByCollectionView.post`: requires a truthy `movie_id` in the
body (else 400); `get_object_or_404(Movie, id=movie_id)` (404 when the
movie is absent); duplicate (collection_id, movie_id) pair → 400 "Movie
already in collection"; otherwise create the row. NOTE: the collection id
from the URL path is never resolved against the store. -/
def WatchlistByCollectionView.post (s : Store) (collection_id : Nat)
    (movie_id : Option Nat) : Response × Store :=
  if !(truthy movie_id) then
    (⟨Body.error "movie_id is required", HTTP_400_BAD_REQUEST⟩, s)
  else
    let mid := movie_id.getD 0
    match findMovie s mid with
    | none => (notFoundResponse, s)
    | some _ =>
      if s.watchlists.any (fun w => w.collection_id == collection_id && w.movie_id == mid) then
        (⟨Body.error "Movie already in collection", HTTP_400_BAD_REQUEST⟩, s)
      else
        let row : Watchlist := ⟨s.nextId, collection_id, mid⟩
        (⟨Body.watchlistData row, HTTP_201_CREATED⟩,
         { s with watchlists := s.watchlists ++ [row], nextId := s.nextId + 1 })

/-- Partial-update data for `MovieReviewSerializer(..., partial=True)`. -/
structure ReviewPatch where
  rating : Option Nat := none
  comment : Option String := none
deriving Repr, DecidableEq

/-- Modelled from the spec: DRF partial-serializer save for reviews —
merge only supplied fields; omitted fields are untouched. -/
def applyReviewPatch (r : MovieReview) (d : ReviewPatch) : MovieReview :=
  { r with rating := d.rating.getD r.rating,
           comment := d.comment.getD r.comment }

def findReview (s : Store) (movie_id review_id : Nat) : Option MovieReview :=
  s.reviews.find? (fun r => r.id == review_id && r.movie_id == movie_id)

/-- `MovieReviewDetailView.patch`: resolve the review by (id, movie_id)
(404 if absent), then merge the partial data and save. No ownership
check. -/
def MovieReviewDetailView.patch (s : Store) (movie_id review_id : Nat)
    (d : ReviewPatch) : Response × Store :=
  match findReview s movie_id review_id with
  | none => (notFoundResponse, s)
  | some review =>
    let review2 := applyReviewPatch review d
    (⟨Body.reviewData review2, HTTP_200_OK⟩,
     { s with reviews :=
         s.reviews.map (fun r => if r.id == review_id && r.movie_id == movie_id then review2 else r) })

/-- `FavoriteListView.post`: requires a truthy collection reference
(else 400 `detail`); `get_object_or_404(Collection, id=collection_id)`;
private collections not owned by the actor → 403; then
`Favorite.objects.get_or_create(user=user, collection=collection)`:
CREATED "Added to favorites" on first creation, OK "Already in favorites"
when the row exists. -/
def FavoriteListView.post (s : Store) (actor : Nat) (collection_id : Option Nat) :
    Response × Store :=
  if !(truthy collection_id) then
    (⟨Body.detail "Collection ID is required.", HTTP_400_BAD_REQUEST⟩, s)
  else
    let cid := collection_id.getD 0
    match findCollection s cid with
    | none => (notFoundResponse, s)
    | some collection =>
      if collection.user != actor && !collection.is_public then
        (⟨Body.detail "You cannot favorite this private collection.",
          HTTP_403_FORBIDDEN⟩, s)
      else
        match s.favorites.find? (fun f => f.user == actor && f.collection == cid) with
        | some _ =>
          (⟨Body.message "Already in favorites", HTTP_200_OK⟩, s)
        | none =>
          (⟨Body.message "Added to favorites", HTTP_201_CREATED⟩,
           { s with favorites := s.favorites ++ [⟨s.nextId, actor, cid⟩],
                    nextId := s.nextId + 1 })

/-- Python `str.strip()`: remove leading and trailing whitespace. -/
def strip (s : String) : String :=
  ⟨((s.data.dropWhile Char.isWhitespace).reverse.dropWhile
      Char.isWhitespace).reverse⟩

/-- Registration request data (`request.data.get(field, "")`). -/
structure SignUpData where
  username : Option String := none
  email : Option String := none
  password : Option String := none
deriving Repr, DecidableEq

/-- `SignUpView.post`, parameterized by the external credential-strength
policy `validatePassword` (`django.contrib.auth.password_validation.validate_password`),
which returns its list of violation messages (empty = the password
passes). Fields are read with `.get(field, "").strip()`; `not all([...])`
rejects any empty (stripped) field; then the password policy; then
username uniqueness; then `create_user` with the stripped values and a
token pair for the new user. -/
def SignUpView.post (s : Store) (validatePassword : String → List String)
    (d : SignUpData) : Response × Store :=
  let username := strip (d.username.getD "")
  let email := strip (d.email.getD "")
  let password := strip (d.password.getD "")
  if username == "" || email == "" || password == "" then
    (⟨Body.error "All fields are required", HTTP_400_BAD_REQUEST⟩, s)
  else
    match validatePassword password with
    | msg :: msgs =>
      (⟨Body.errorList (msg :: msgs), HTTP_400_BAD_REQUEST⟩, s)
    | [] =>
      if s.users.any (fun u => u.username == username) then
        (⟨Body.error "Username already exists", HTTP_400_BAD_REQUEST⟩, s)
      else
        let user : UserRec := ⟨s.nextId, username, email, password⟩
        (⟨Body.tokens user.id, HTTP_201_CREATED⟩,
         { s with users := s.users ++ [user], nextId := s.nextId + 1 })

/-- Number of Favorite rows for a (user, collection) pair. -/
def favCount (s : Store) (u cid : Nat) : Nat :=
  (s.favorites.filter (fun f => f.user == u && f.collection == cid)).length

/-- Number of Watchlist rows for a (collection, movie) pair. -/
def wlCount (s : Store) (cid mid : Nat) : Nat :=
  (s.watchlists.filter (fun w => w.collection_id == cid && w.movie_id == mid)).length

/-- Extract the collection list carried by a `collectionListData` body. -/
def bodyCollections : Body → List Collection
  | Body.collectionListData l => l
  | _ => []

/-- The empty store, used to build concrete stores in witnesses. -/
def emptyStore : Store :=
  { movies := [], tags := [], collections := [], watchlists := [], reviews := [],
    favorites := [], tagCollections := [], users := [], nextId := 1 }

theorem find?_eq_none_of_count_zero {α} (p : α → Bool) (l : List α)
    (h : (l.filter p).length = 0) : l.find? p = none := by
  rw [List.find?_eq_none]
  intro x hx
  exact List.filter_eq_nil_iff.mp (List.length_eq_zero.mp h) x hx

theorem any_eq_false_of_count_zero {α} (p : α → Bool) (l : List α)
    (h : (l.filter p).length = 0) : l.any p = false := by
  rw [List.any_eq_false]
  intro x hx
  exact List.filter_eq_nil_iff.mp (List.length_eq_zero.mp h) x hx

theorem any_eq_true_of_count_pos {α} (p : α → Bool) (l : List α)
    (h : 1 ≤ (l.filter p).length) : l.any p = true := by
  rw [List.any_eq_true]
  have hne : l.filter p ≠ [] := by
    intro hnil
    rw [hnil] at h
    simp at h
  obtain ⟨x, hx⟩ := List.exists_mem_of_ne_nil _ hne
  have hm := List.mem_filter.mp hx
  exact ⟨x, hm.1, hm.2⟩

/-- C1: for every movie m and authenticated actor a, PATCH or DELETE on m
succeeds only when a equals m.added_by; when a is not m.added_by the
handler returns FORBIDDEN (not NOT_FOUND) with an error message, and m's
stored record is unchanged. -/
theorem C1_movie_mutation_owner_gate (s : Store) (a pk : Nat) (d : MoviePatch)
    (m : Movie) (hm : findMovie s pk = some m) :
    (m.added_by = a →
      (MovieDetailView.patch s a pk d).1.status = HTTP_200_OK ∧
      (MovieDetailView.delete s a pk).1.status = HTTP_204_NO_CONTENT) ∧
    (m.added_by ≠ a →
      MovieDetailView.patch s a pk d =
        (⟨Body.error "You do not have permission to edit this movie.",
          HTTP_403_FORBIDDEN⟩, s) ∧
      MovieDetailView.delete s a pk =
        (⟨Body.error "You do not have permission to delete this movie.",
          HTTP_403_FORBIDDEN⟩, s) ∧
      HTTP_403_FORBIDDEN ≠ HTTP_404_NOT_FOUND) := by
  unfold MovieDetailView.patch MovieDetailView.delete
  rw [hm]
  constructor
  · intro h
    simp [h]
  · intro h
    simp only [bne_iff_ne, ne_eq, h, not_false_eq_true, if_true]
    exact ⟨trivial, trivial, by decide⟩

/-- C1 witness: in a store whose only movie was added by user 7, actor 8's
PATCH and DELETE are FORBIDDEN and leave the store unchanged. -/
theorem C1_witness :
    MovieDetailView.patch { emptyStore with movies := [⟨1, "t", "d", 7⟩] } 8 1 {} =
      (⟨Body.error "You do not have permission to edit this movie.",
        HTTP_403_FORBIDDEN⟩, { emptyStore with movies := [⟨1, "t", "d", 7⟩] }) ∧
    MovieDetailView.delete { emptyStore with movies := [⟨1, "t", "d", 7⟩] } 8 1 =
      (⟨Body.error "You do not have permission to delete this movie.",
        HTTP_403_FORBIDDEN⟩, { emptyStore with movies := [⟨1, "t", "d", 7⟩] }) := by
  have h := C1_movie_mutation_owner_gate
    { emptyStore with movies := [⟨1, "t", "d", 7⟩] } 8 1 {} ⟨1, "t", "d", 7⟩ (by rfl)
  exact ⟨(h.2 (by decide)).1, (h.2 (by decide)).2.1⟩

/-- C2: GET on a collection returns OK with the serialized collection when
the actor is the owner or the collection is public, and FORBIDDEN
otherwise. -/
theorem C2_collection_read_gate (s : Store) (a pk : Nat) (c : Collection)
    (hc : findCollection s pk = some c) :
    ((c.user = a ∨ c.is_public = true) →
      CollectionDetailView.get s a pk = ⟨Body.collectionData c, HTTP_200_OK⟩) ∧
    (c.user ≠ a ∧ c.is_public = false →
      CollectionDetailView.get s a pk =
        ⟨Body.detail "You do not have permission to view this collection.",
         HTTP_403_FORBIDDEN⟩) := by
  unfold CollectionDetailView.get
  rw [hc]
  constructor
  · intro h
    rcases h with h | h <;> simp [h]
  · intro ⟨h1, h2⟩
    simp [h1, h2]

/-- C2 witness: a private collection owned by user 4 is FORBIDDEN to actor
5 but OK for its owner. -/
theorem C2_witness :
    CollectionDetailView.get
        { emptyStore with collections := [⟨1, "c", 4, false⟩] } 5 1 =
      ⟨Body.detail "You do not have permission to view this collection.",
       HTTP_403_FORBIDDEN⟩ ∧
    CollectionDetailView.get
        { emptyStore with collections := [⟨1, "c", 4, false⟩] } 4 1 =
      ⟨Body.collectionData ⟨1, "c", 4, false⟩, HTTP_200_OK⟩ := by
  have h := C2_collection_read_gate
    { emptyStore with collections := [⟨1, "c", 4, false⟩] } 5 1 ⟨1, "c", 4, false⟩ (by rfl)
  have h2 := C2_collection_read_gate
    { emptyStore with collections := [⟨1, "c", 4, false⟩] } 4 1 ⟨1, "c", 4, false⟩ (by rfl)
  exact ⟨h.2 (by decide), h2.1 (Or.inl rfl)⟩

/-- C8: deleting a tag clears all of its Collection associations and then
removes the tag, returning NO_CONTENT: afterwards no tag row with that id
and no tag–collection join row for it remains, and nothing else is
touched. -/
theorem C8_tag_delete_detaches (s : Store) (pk : Nat) (t : Tag)
    (ht : findTag s pk = some t) :
    (TagDetailView.delete s pk).1 = ⟨Body.empty, HTTP_204_NO_CONTENT⟩ ∧
    (∀ x ∈ (TagDetailView.delete s pk).2.tags, x.id ≠ pk) ∧
    (∀ p ∈ (TagDetailView.delete s pk).2.tagCollections, p.1 ≠ pk) ∧
    (TagDetailView.delete s pk).2.tags = s.tags.filter (fun x => !(x.id == pk)) ∧
    (TagDetailView.delete s pk).2.tagCollections =
      s.tagCollections.filter (fun p => !(p.1 == pk)) ∧
    (TagDetailView.delete s pk).2.collections = s.collections := by
  unfold TagDetailView.delete
  rw [ht]
  refine ⟨rfl, ?_, ?_, rfl, rfl, rfl⟩
  · intro x hx
    have := (List.mem_filter.mp hx).2
    simpa using this
  · intro p hp
    have := (List.mem_filter.mp hp).2
    simpa using this

/-- C8 witness: deleting tag 1, attached to collections 5 and 6, leaves no
join row for it while tag 2's row survives. -/
theorem C8_witness :
    (TagDetailView.delete
        { emptyStore with tags := [⟨1, "a"⟩, ⟨2, "b"⟩],
                          tagCollections := [(1, 5), (2, 5), (1, 6)] } 1).1 =
      ⟨Body.empty, HTTP_204_NO_CONTENT⟩ ∧
    (TagDetailView.delete
        { emptyStore with tags := [⟨1, "a"⟩, ⟨2, "b"⟩],
                          tagCollections := [(1, 5), (2, 5), (1, 6)] } 1).2.tags =
      [⟨2, "b"⟩] ∧
    (TagDetailView.delete
        { emptyStore with tags := [⟨1, "a"⟩, ⟨2, "b"⟩],
                          tagCollections := [(1, 5), (2, 5), (1, 6)] } 1).2.tagCollections =
      [(2, 5)] := by
  have h := C8_tag_delete_detaches
    { emptyStore with tags := [⟨1, "a"⟩, ⟨2, "b"⟩],
                      tagCollections := [(1, 5), (2, 5), (1, 6)] } 1 ⟨1, "a"⟩ (by rfl)
  refine ⟨h.1, ?_, ?_⟩
  · rw [h.2.2.2.1]
    decide
  · rw [h.2.2.2.2.1]
    decide

/-- C9: the collection list endpoint returns exactly the collections owned
by the requesting actor (public collections of others excluded), while the
public-collections endpoint returns exactly the collections with is_public
true, regardless of owner. -/
theorem C9_collection_lists (s : Store) (a : Nat) (c : Collection) :
    (c ∈ bodyCollections (CollectionListView.get s a).body ↔
      c ∈ s.collections ∧ c.user = a) ∧
    (c ∈ bodyCollections (PublicCollectionListView.get s).body ↔
      c ∈ s.collections ∧ c.is_public = true) := by
  constructor
  · simp [CollectionListView.get, bodyCollections, List.mem_filter]
  · simp [PublicCollectionListView.get, bodyCollections, List.mem_filter]

/-- C9 witness: with one private own collection, one public foreign one
and one private foreign one, the own list holds exactly the first and the
public list exactly the second. -/
theorem C9_witness :
    ((⟨1, "mine", 4, false⟩ : Collection) ∈ bodyCollections
      (CollectionListView.get
        { emptyStore with
            collections := [⟨1, "mine", 4, false⟩, ⟨2, "pub", 5, true⟩,
                            ⟨3, "priv", 5, false⟩] } 4).body ↔
      (⟨1, "mine", 4, false⟩ : Collection) ∈
        ([⟨1, "mine", 4, false⟩, ⟨2, "pub", 5, true⟩, ⟨3, "priv", 5, false⟩] :
          List Collection) ∧ (4 : Nat) = 4) ∧
    ((⟨2, "pub", 5, true⟩ : Collection) ∈ bodyCollections
      (PublicCollectionListView.get
        { emptyStore with
            collections := [⟨1, "mine", 4, false⟩, ⟨2, "pub", 5, true⟩,
                            ⟨3, "priv", 5, false⟩] }).body ↔
      (⟨2, "pub", 5, true⟩ : Collection) ∈
        ([⟨1, "mine", 4, false⟩, ⟨2, "pub", 5, true⟩, ⟨3, "priv", 5, false⟩] :
          List Collection) ∧ true = true) := by
  have h1 := C9_collection_lists
    { emptyStore with
        collections := [⟨1, "mine", 4, false⟩, ⟨2, "pub", 5, true⟩,
                        ⟨3, "priv", 5, false⟩] } 4 ⟨1, "mine", 4, false⟩
  have h2 := C9_collection_lists
    { emptyStore with
        collections := [⟨1, "mine", 4, false⟩, ⟨2, "pub", 5, true⟩,
                        ⟨3, "priv", 5, false⟩] } 4 ⟨2, "pub", 5, true⟩
  exact ⟨h1.1, h2.2⟩

theorem favorite_post_creates (s : Store) (u cid : Nat) (c : Collection)
    (hcid : cid ≠ 0) (hc : findCollection s cid = some c)
    (hread : c.user = u ∨ c.is_public = true)
    (h0 : favCount s u cid = 0) :
    FavoriteListView.post s u (some cid) =
      (⟨Body.message "Added to favorites", HTTP_201_CREATED⟩,
       { s with favorites := s.favorites ++ [⟨s.nextId, u, cid⟩],
                nextId := s.nextId + 1 }) := by
  have hfind : s.favorites.find? (fun f => f.user == u && f.collection == cid) = none :=
    find?_eq_none_of_count_zero _ _ h0
  have hcond : (c.user != u && !c.is_public) = false := by
    rcases hread with h | h <;> simp [h]
  unfold FavoriteListView.post
  simp only [truthy, Option.getD_some]
  simp only [show (cid != 0) = true from by simp [hcid], Bool.not_true,
    Bool.false_eq_true, if_false]
  rw [hc]
  simp only [hcond, Bool.false_eq_true, if_false]
  rw [hfind]

/-- C3: favorite creation is idempotent — with no existing (u, c) row, the
first POST returns CREATED "Added to favorites" and creates exactly one
Favorite row; the second POST of the same pair returns OK "Already in
favorites" and leaves the store, and in particular the row count,
unchanged. -/
theorem C3_favorite_idempotent (s : Store) (u cid : Nat) (c : Collection)
    (hcid : cid ≠ 0) (hc : findCollection s cid = some c)
    (hread : c.user = u ∨ c.is_public = true)
    (h0 : favCount s u cid = 0) :
    (FavoriteListView.post s u (some cid)).1 =
      ⟨Body.message "Added to favorites", HTTP_201_CREATED⟩ ∧
    favCount (FavoriteListView.post s u (some cid)).2 u cid = 1 ∧
    (FavoriteListView.post (FavoriteListView.post s u (some cid)).2 u (some cid)).1 =
      ⟨Body.message "Already in favorites", HTTP_200_OK⟩ ∧
    (FavoriteListView.post (FavoriteListView.post s u (some cid)).2 u (some cid)).2 =
      (FavoriteListView.post s u (some cid)).2 := by
  have hfind : s.favorites.find? (fun f => f.user == u && f.collection == cid) = none :=
    find?_eq_none_of_count_zero _ _ h0
  have hcond : (c.user != u && !c.is_public) = false := by
    rcases hread with h | h <;> simp [h]
  have hpost := favorite_post_creates s u cid c hcid hc hread h0
  rw [hpost]
  have hcount : favCount
      { s with favorites := s.favorites ++ [⟨s.nextId, u, cid⟩],
               nextId := s.nextId + 1 } u cid = 1 := by
    unfold favCount at h0 ⊢
    simp only [List.filter_append, List.length_append, h0]
    simp
  refine ⟨rfl, hcount, ?_, ?_⟩ <;>
  · unfold FavoriteListView.post
    simp only [truthy, Option.getD_some]
    simp only [show (cid != 0) = true from by simp [hcid], Bool.not_true,
      Bool.false_eq_true, if_false]
    rw [show findCollection
        { s with favorites := s.favorites ++ [⟨s.nextId, u, cid⟩],
                 nextId := s.nextId + 1 } cid = some c from hc]
    simp only [hcond, Bool.false_eq_true, if_false]
    rw [show (s.favorites ++ [(⟨s.nextId, u, cid⟩ : Favorite)]).find?
          (fun f => f.user == u && f.collection == cid) =
        some ⟨s.nextId, u, cid⟩ from by
      rw [List.find?_append, hfind]
      simp]

/-- C3 witness: user 9 favorites public collection 3 twice — CREATED then
OK, one row. -/
theorem C3_witness :
    (FavoriteListView.post { emptyStore with collections := [⟨3, "c", 4, true⟩] }
        9 (some 3)).1 =
      ⟨Body.message "Added to favorites", HTTP_201_CREATED⟩ ∧
    favCount (FavoriteListView.post
        { emptyStore with collections := [⟨3, "c", 4, true⟩] } 9 (some 3)).2 9 3 = 1 ∧
    (FavoriteListView.post
        (FavoriteListView.post { emptyStore with collections := [⟨3, "c", 4, true⟩] }
          9 (some 3)).2 9 (some 3)).1 =
      ⟨Body.message "Already in favorites", HTTP_200_OK⟩ := by
  have h := C3_favorite_idempotent
    { emptyStore with collections := [⟨3, "c", 4, true⟩] } 9 3 ⟨3, "c", 4, true⟩
    (by decide) (by rfl) (Or.inr rfl) (by decide)
  exact ⟨h.1, h.2.1, h.2.2.1⟩

theorem watchlist_post_creates (s : Store) (cid mid : Nat) (m : Movie)
    (hmid : mid ≠ 0) (hm : findMovie s mid = some m)
    (h0 : wlCount s cid mid = 0) :
    WatchlistByCollectionView.post s cid (some mid) =
      (⟨Body.watchlistData ⟨s.nextId, cid, mid⟩, HTTP_201_CREATED⟩,
       { s with watchlists := s.watchlists ++ [⟨s.nextId, cid, mid⟩],
                nextId := s.nextId + 1 }) := by
  have hany : s.watchlists.any
      (fun w => w.collection_id == cid && w.movie_id == mid) = false :=
    any_eq_false_of_count_zero _ _ h0
  unfold WatchlistByCollectionView.post
  simp only [truthy, Option.getD_some]
  simp only [show (mid != 0) = true from by simp [hmid], Bool.not_true,
    Bool.false_eq_true, if_false]
  rw [hm]
  simp only [hany, Bool.false_eq_true, if_false]

/-- C4: watchlist add returns BAD_REQUEST without a movie reference,
NOT_FOUND when the referenced movie does not exist, BAD_REQUEST "Movie
already in collection" (with no new row) on a duplicate pair, and
otherwise creates exactly one (C, movie) row with CREATED — adding the
same movie twice yields CREATED then BAD_REQUEST with exactly one row. -/
theorem C4_watchlist_add (s : Store) (cid : Nat) :
    (WatchlistByCollectionView.post s cid none =
      (⟨Body.error "movie_id is required", HTTP_400_BAD_REQUEST⟩, s)) ∧
    (∀ mid, mid ≠ 0 → findMovie s mid = none →
      WatchlistByCollectionView.post s cid (some mid) = (notFoundResponse, s)) ∧
    (∀ mid m, mid ≠ 0 → findMovie s mid = some m → 1 ≤ wlCount s cid mid →
      WatchlistByCollectionView.post s cid (some mid) =
        (⟨Body.error "Movie already in collection", HTTP_400_BAD_REQUEST⟩, s)) ∧
    (∀ mid m, mid ≠ 0 → findMovie s mid = some m → wlCount s cid mid = 0 →
      (WatchlistByCollectionView.post s cid (some mid)).1.status = HTTP_201_CREATED ∧
      wlCount (WatchlistByCollectionView.post s cid (some mid)).2 cid mid = 1 ∧
      (WatchlistByCollectionView.post
          (WatchlistByCollectionView.post s cid (some mid)).2 cid (some mid)).1 =
        ⟨Body.error "Movie already in collection", HTTP_400_BAD_REQUEST⟩ ∧
      (WatchlistByCollectionView.post
          (WatchlistByCollectionView.post s cid (some mid)).2 cid (some mid)).2 =
        (WatchlistByCollectionView.post s cid (some mid)).2) := by
  refine ⟨rfl, ?_, ?_, ?_⟩
  · intro mid hmid hnone
    unfold WatchlistByCollectionView.post
    simp only [truthy, Option.getD_some]
    simp only [show (mid != 0) = true from by simp [hmid], Bool.not_true,
      Bool.false_eq_true, if_false]
    rw [hnone]
  · intro mid m hmid hm hdup
    have hdup2 : 1 ≤ (s.watchlists.filter
        (fun w => w.collection_id == cid && w.movie_id == mid)).length := hdup
    have hany := any_eq_true_of_count_pos
      (fun w => w.collection_id == cid && w.movie_id == mid) s.watchlists hdup2
    unfold WatchlistByCollectionView.post
    simp only [truthy, Option.getD_some]
    simp only [show (mid != 0) = true from by simp [hmid], Bool.not_true,
      Bool.false_eq_true, if_false]
    rw [hm]
    simp only [hany, if_true]
  · intro mid m hmid hm h0
    have hpost := watchlist_post_creates s cid mid m hmid hm h0
    rw [hpost]
    have hcount : wlCount
        { s with watchlists := s.watchlists ++ [⟨s.nextId, cid, mid⟩],
                 nextId := s.nextId + 1 } cid mid = 1 := by
      unfold wlCount at h0 ⊢
      simp only [List.filter_append, List.length_append, h0]
      simp
    refine ⟨rfl, hcount, ?_, ?_⟩ <;>
    · unfold WatchlistByCollectionView.post
      simp only [truthy, Option.getD_some]
      simp only [show (mid != 0) = true from by simp [hmid], Bool.not_true,
        Bool.false_eq_true, if_false]
      rw [show findMovie
          { s with watchlists := s.watchlists ++ [⟨s.nextId, cid, mid⟩],
                   nextId := s.nextId + 1 } mid = some m from hm]
      rw [show (s.watchlists ++ [(⟨s.nextId, cid, mid⟩ : Watchlist)]).any
            (fun w => w.collection_id == cid && w.movie_id == mid) = true from by
        simp]
      simp only [if_true]

/-- C4 witness: adding movie 1 to collection 2 twice — CREATED then
BAD_REQUEST, one row; missing movie_id and unknown movie cases. -/
theorem C4_witness :
    (WatchlistByCollectionView.post
        { emptyStore with movies := [⟨1, "t", "d", 7⟩] } 2 none).1.status =
      HTTP_400_BAD_REQUEST ∧
    (WatchlistByCollectionView.post
        { emptyStore with movies := [⟨1, "t", "d", 7⟩] } 2 (some 3)).1 =
      notFoundResponse ∧
    (WatchlistByCollectionView.post
        { emptyStore with movies := [⟨1, "t", "d", 7⟩] } 2 (some 1)).1.status =
      HTTP_201_CREATED ∧
    wlCount (WatchlistByCollectionView.post
        { emptyStore with movies := [⟨1, "t", "d", 7⟩] } 2 (some 1)).2 2 1 = 1 ∧
    (WatchlistByCollectionView.post
        (WatchlistByCollectionView.post
          { emptyStore with movies := [⟨1, "t", "d", 7⟩] } 2 (some 1)).2
        2 (some 1)).1 =
      ⟨Body.error "Movie already in collection", HTTP_400_BAD_REQUEST⟩ := by
  have h := C4_watchlist_add { emptyStore with movies := [⟨1, "t", "d", 7⟩] } 2
  have hd := h.2.2.2 1 ⟨1, "t", "d", 7⟩ (by decide) (by rfl) (by decide)
  exact ⟨by rw [h.1], by rw [h.2.1 3 (by decide) (by rfl)], hd.1, hd.2.1, hd.2.2.1⟩

theorem signup_missing_fields (s : Store) (vp : String → List String) (d : SignUpData)
    (h : strip (d.username.getD "") = "" ∨ strip (d.email.getD "") = "" ∨
      strip (d.password.getD "") = "") :
    SignUpView.post s vp d =
      (⟨Body.error "All fields are required", HTTP_400_BAD_REQUEST⟩, s) := by
  unfold SignUpView.post
  rcases h with h | h | h <;> simp [h]

theorem signup_password_fail (s : Store) (vp : String → List String) (d : SignUpData)
    (hu : strip (d.username.getD "") ≠ "") (he : strip (d.email.getD "") ≠ "")
    (hp : strip (d.password.getD "") ≠ "") (hvp : vp (strip (d.password.getD "")) ≠ []) :
    SignUpView.post s vp d =
      (⟨Body.errorList (vp (strip (d.password.getD ""))), HTTP_400_BAD_REQUEST⟩, s) := by
  have hcond : (strip (d.username.getD "") == "" || strip (d.email.getD "") == "" ||
      strip (d.password.getD "") == "") = false := by
    simp [hu, he, hp]
  obtain ⟨a, l, h⟩ : ∃ a l, vp (strip (d.password.getD "")) = a :: l := by
    cases hq : vp (strip (d.password.getD "")) with
    | nil => exact absurd hq hvp
    | cons a l => exact ⟨a, l, rfl⟩
  unfold SignUpView.post
  simp only [hcond, Bool.false_eq_true, if_false]
  rw [h]

theorem signup_username_taken (s : Store) (vp : String → List String) (d : SignUpData)
    (hu : strip (d.username.getD "") ≠ "") (he : strip (d.email.getD "") ≠ "")
    (hp : strip (d.password.getD "") ≠ "") (hvp : vp (strip (d.password.getD "")) = [])
    (htaken : s.users.any (fun x => x.username == strip (d.username.getD "")) = true) :
    SignUpView.post s vp d =
      (⟨Body.error "Username already exists", HTTP_400_BAD_REQUEST⟩, s) := by
  have hcond : (strip (d.username.getD "") == "" || strip (d.email.getD "") == "" ||
      strip (d.password.getD "") == "") = false := by
    simp [hu, he, hp]
  unfold SignUpView.post
  simp only [hcond, Bool.false_eq_true, if_false]
  rw [hvp]
  simp only [htaken, if_true]

theorem signup_success (s : Store) (vp : String → List String) (d : SignUpData)
    (hu : strip (d.username.getD "") ≠ "") (he : strip (d.email.getD "") ≠ "")
    (hp : strip (d.password.getD "") ≠ "") (hvp : vp (strip (d.password.getD "")) = [])
    (hfree : s.users.any (fun x => x.username == strip (d.username.getD "")) = false) :
    SignUpView.post s vp d =
      (⟨Body.tokens s.nextId, HTTP_201_CREATED⟩,
       { s with users := s.users ++
                  [⟨s.nextId, strip (d.username.getD ""), strip (d.email.getD ""),
                    strip (d.password.getD "")⟩],
                nextId := s.nextId + 1 }) := by
  have hcond : (strip (d.username.getD "") == "" || strip (d.email.getD "") == "" ||
      strip (d.password.getD "") == "") = false := by
    simp [hu, he, hp]
  unfold SignUpView.post
  simp only [hcond, Bool.false_eq_true, if_false]
  rw [hvp]
  simp only [hfree, Bool.false_eq_true, if_false]

/-- C5: registration is checked in order and atomic on failure — missing
(stripped-empty) fields give BAD_REQUEST "All fields are required"; a
password failing the strength policy gives BAD_REQUEST with the policy's
messages and no new User row; an already-taken username gives BAD_REQUEST
"Username already exists" and no new User row; a valid POST creates
exactly one new User and returns CREATED with a token pair. -/
theorem C5_registration (s : Store) (vp : String → List String) (d : SignUpData) :
    ((strip (d.username.getD "") = "" ∨ strip (d.email.getD "") = "" ∨
      strip (d.password.getD "") = "") →
      SignUpView.post s vp d =
        (⟨Body.error "All fields are required", HTTP_400_BAD_REQUEST⟩, s)) ∧
    (strip (d.username.getD "") ≠ "" → strip (d.email.getD "") ≠ "" →
      strip (d.password.getD "") ≠ "" → vp (strip (d.password.getD "")) ≠ [] →
      SignUpView.post s vp d =
        (⟨Body.errorList (vp (strip (d.password.getD ""))), HTTP_400_BAD_REQUEST⟩, s)) ∧
    (strip (d.username.getD "") ≠ "" → strip (d.email.getD "") ≠ "" →
      strip (d.password.getD "") ≠ "" → vp (strip (d.password.getD "")) = [] →
      s.users.any (fun x => x.username == strip (d.username.getD "")) = true →
      SignUpView.post s vp d =
        (⟨Body.error "Username already exists", HTTP_400_BAD_REQUEST⟩, s)) ∧
    (strip (d.username.getD "") ≠ "" → strip (d.email.getD "") ≠ "" →
      strip (d.password.getD "") ≠ "" → vp (strip (d.password.getD "")) = [] →
      s.users.any (fun x => x.username == strip (d.username.getD "")) = false →
      (SignUpView.post s vp d).1 = ⟨Body.tokens s.nextId, HTTP_201_CREATED⟩ ∧
      (SignUpView.post s vp d).2.users =
        s.users ++ [⟨s.nextId, strip (d.username.getD ""), strip (d.email.getD ""),
                     strip (d.password.getD "")⟩]) := by
  refine ⟨signup_missing_fields s vp d,
    signup_password_fail s vp d, signup_username_taken s vp d, ?_⟩
  intro hu he hp hvp hfree
  rw [signup_success s vp d hu he hp hvp hfree]
  exact ⟨rfl, rfl⟩

/-- C5 witness: against a policy rejecting passwords shorter than 8
characters — a too-short password gives BAD_REQUEST with the policy
message and no user; a duplicate username gives BAD_REQUEST; a valid POST
creates exactly the one new user with CREATED. -/
theorem C5_witness :
    SignUpView.post emptyStore
        (fun p => if p.length < 8 then ["This password is too short."] else [])
        ⟨some "alice", some "a@b.c", some "pw"⟩ =
      (⟨Body.errorList ["This password is too short."], HTTP_400_BAD_REQUEST⟩,
       emptyStore) ∧
    SignUpView.post { emptyStore with users := [⟨0, "alice", "x@y.z", "oldpassword"⟩] }
        (fun p => if p.length < 8 then ["This password is too short."] else [])
        ⟨some "alice", some "a@b.c", some "longpassword"⟩ =
      (⟨Body.error "Username already exists", HTTP_400_BAD_REQUEST⟩,
       { emptyStore with users := [⟨0, "alice", "x@y.z", "oldpassword"⟩] }) ∧
    (SignUpView.post emptyStore
        (fun p => if p.length < 8 then ["This password is too short."] else [])
        ⟨some "alice", some "a@b.c", some "longpassword"⟩).1 =
      ⟨Body.tokens 1, HTTP_201_CREATED⟩ ∧
    (SignUpView.post emptyStore
        (fun p => if p.length < 8 then ["This password is too short."] else [])
        ⟨some "alice", some "a@b.c", some "longpassword"⟩).2.users =
      [⟨1, "alice", "a@b.c", "longpassword"⟩] := by
  have h1 := C5_registration emptyStore
    (fun p => if p.length < 8 then ["This password is too short."] else [])
    ⟨some "alice", some "a@b.c", some "pw"⟩
  have h2 := C5_registration
    { emptyStore with users := [⟨0, "alice", "x@y.z", "oldpassword"⟩] }
    (fun p => if p.length < 8 then ["This password is too short."] else [])
    ⟨some "alice", some "a@b.c", some "longpassword"⟩
  have h3 := C5_registration emptyStore
    (fun p => if p.length < 8 then ["This password is too short."] else [])
    ⟨some "alice", some "a@b.c", some "longpassword"⟩
  have hv := h3.2.2.2 (by decide) (by decide) (by decide) (by rfl) (by rfl)
  exact ⟨h1.2.1 (by decide) (by decide) (by decide) (by decide),
    h2.2.2.1 (by decide) (by decide) (by decide) (by rfl) (by rfl),
    hv.1, hv.2⟩

/-- C10: registration strips leading and trailing whitespace from
username, email and password before any check — a whitespace-only field is
treated as missing (BAD_REQUEST "All fields are required"), and a created
user stores the stripped username and email. -/
theorem C10_signup_strips (s : Store) (vp : String → List String) (u e p : String) :
    (strip u = "" ∨ strip e = "" ∨ strip p = "" →
      SignUpView.post s vp ⟨some u, some e, some p⟩ =
        (⟨Body.error "All fields are required", HTTP_400_BAD_REQUEST⟩, s)) ∧
    (strip u ≠ "" → strip e ≠ "" → strip p ≠ "" → vp (strip p) = [] →
      s.users.any (fun x => x.username == strip u) = false →
      (SignUpView.post s vp ⟨some u, some e, some p⟩).1 =
        ⟨Body.tokens s.nextId, HTTP_201_CREATED⟩ ∧
      (SignUpView.post s vp ⟨some u, some e, some p⟩).2.users =
        s.users ++ [⟨s.nextId, strip u, strip e, strip p⟩]) := by
  constructor
  · exact fun h => signup_missing_fields s vp ⟨some u, some e, some p⟩ h
  · intro hu he hp hvp hfree
    rw [signup_success s vp ⟨some u, some e, some p⟩ hu he hp hvp hfree]
    exact ⟨rfl, rfl⟩

/-- C10 witness: a whitespace-only username is rejected as missing, and a
signup with padded fields stores the stripped username and email. -/
theorem C10_witness :
    SignUpView.post emptyStore (fun _ => [])
        ⟨some "   ", some "a@b.c", some "longpassword"⟩ =
      (⟨Body.error "All fields are required", HTTP_400_BAD_REQUEST⟩, emptyStore) ∧
    (SignUpView.post emptyStore (fun _ => [])
        ⟨some " bob ", some " b@c.d ", some " longpassword "⟩).2.users =
      [⟨1, "bob", "b@c.d", "longpassword"⟩] := by
  have h1 := C10_signup_strips emptyStore (fun _ => []) "   " "a@b.c" "longpassword"
  have h2 := C10_signup_strips emptyStore (fun _ => []) " bob " " b@c.d " " longpassword "
  exact ⟨h1.1 (Or.inl (by decide)),
    (h2.2 (by decide) (by decide) (by decide) (by rfl) (by rfl)).2⟩

/-- C6 counterexample: `TagDetailView.patch` builds its serializer WITHOUT
`partial=True`, so a PATCH supplying only a (proper) subset of the tag's
fields — here none of them — is rejected with BAD_REQUEST instead of
merging and returning OK. -/
theorem C6_counterexample :
    (TagDetailView.patch { emptyStore with tags := [⟨1, "horror"⟩] } 1
        { name := none }).1.status = HTTP_400_BAD_REQUEST ∧
    HTTP_400_BAD_REQUEST ≠ HTTP_200_OK := by decide

/-- C6 (amended): Movie, Collection and MovieReview PATCH merge exactly
the supplied fields, omitted fields keep their previous value, and the
response is OK; Tag PATCH is a full (non-partial) update — a request
omitting the tag's name yields BAD_REQUEST with the record unchanged,
while a request supplying it replaces the name with OK. -/
theorem C6_amended_partial_patch (s : Store) (a : Nat) :
    (∀ pk d m, findMovie s pk = some m → m.added_by = a →
      (MovieDetailView.patch s a pk d).1 =
        ⟨Body.movieData (applyMoviePatch m d), HTTP_200_OK⟩ ∧
      (MovieDetailView.patch s a pk d).2.movies =
        s.movies.map (fun x => if x.id == pk then applyMoviePatch m d else x) ∧
      (applyMoviePatch m d).id = m.id ∧
      (applyMoviePatch m d).added_by = m.added_by ∧
      (d.title = none → (applyMoviePatch m d).title = m.title) ∧
      (d.description = none → (applyMoviePatch m d).description = m.description) ∧
      (∀ v, d.title = some v → (applyMoviePatch m d).title = v) ∧
      (∀ v, d.description = some v → (applyMoviePatch m d).description = v)) ∧
    (∀ pk d c, findCollection s pk = some c → c.user = a →
      (CollectionDetailView.patch s a pk d).1 =
        ⟨Body.collectionData (applyCollectionPatch c d), HTTP_200_OK⟩ ∧
      (CollectionDetailView.patch s a pk d).2.collections =
        s.collections.map
          (fun x => if x.id == pk then applyCollectionPatch c d else x) ∧
      (d.name = none → (applyCollectionPatch c d).name = c.name) ∧
      (d.is_public = none → (applyCollectionPatch c d).is_public = c.is_public) ∧
      (∀ v, d.name = some v → (applyCollectionPatch c d).name = v) ∧
      (∀ v, d.is_public = some v → (applyCollectionPatch c d).is_public = v)) ∧
    (∀ mid rid d r, findReview s mid rid = some r →
      (MovieReviewDetailView.patch s mid rid d).1 =
        ⟨Body.reviewData (applyReviewPatch r d), HTTP_200_OK⟩ ∧
      (MovieReviewDetailView.patch s mid rid d).2.reviews =
        s.reviews.map
          (fun x => if x.id == rid && x.movie_id == mid then applyReviewPatch r d
                    else x) ∧
      (d.rating = none → (applyReviewPatch r d).rating = r.rating) ∧
      (d.comment = none → (applyReviewPatch r d).comment = r.comment) ∧
      (∀ v, d.rating = some v → (applyReviewPatch r d).rating = v) ∧
      (∀ v, d.comment = some v → (applyReviewPatch r d).comment = v)) ∧
    (∀ pk t, findTag s pk = some t →
      TagDetailView.patch s pk { name := none } =
        (⟨Body.errorList ["This field is required."], HTTP_400_BAD_REQUEST⟩, s) ∧
      ∀ nm, (TagDetailView.patch s pk { name := some nm }).1 =
        ⟨Body.tagData ⟨t.id, nm⟩, HTTP_200_OK⟩) := by
  refine ⟨?_, ?_, ?_, ?_⟩
  · intro pk d m hm ha
    unfold MovieDetailView.patch
    rw [hm]
    simp only [show (m.added_by != a) = false from by simp [ha],
      Bool.false_eq_true, if_false]
    refine ⟨trivial, trivial, rfl, rfl, ?_, ?_, ?_, ?_⟩
    · intro h
      simp [applyMoviePatch, h]
    · intro h
      simp [applyMoviePatch, h]
    · intro v h
      simp [applyMoviePatch, h]
    · intro v h
      simp [applyMoviePatch, h]
  · intro pk d c hc ha
    unfold CollectionDetailView.patch
    rw [hc]
    simp only [show (c.user != a) = false from by simp [ha],
      Bool.false_eq_true, if_false]
    refine ⟨trivial, trivial, ?_, ?_, ?_, ?_⟩
    · intro h
      simp [applyCollectionPatch, h]
    · intro h
      simp [applyCollectionPatch, h]
    · intro v h
      simp [applyCollectionPatch, h]
    · intro v h
      simp [applyCollectionPatch, h]
  · intro mid rid d r hr
    unfold MovieReviewDetailView.patch
    rw [hr]
    refine ⟨rfl, rfl, ?_, ?_, ?_, ?_⟩
    · intro h
      simp [applyReviewPatch, h]
    · intro h
      simp [applyReviewPatch, h]
    · intro v h
      simp [applyReviewPatch, h]
    · intro v h
      simp [applyReviewPatch, h]
  · intro pk t ht
    constructor
    · unfold TagDetailView.patch
      rw [ht]
      rfl
    · intro nm
      unfold TagDetailView.patch
      rw [ht]
      rfl

/-- C6 witness: a movie PATCH supplying only the title keeps the
description; a tag PATCH without the name field is BAD_REQUEST while one
with it renames the tag with OK. -/
theorem C6_witness :
    (MovieDetailView.patch
        { emptyStore with movies := [⟨1, "t", "d", 7⟩], tags := [⟨4, "horror"⟩] }
        7 1 { title := some "new" }).1 =
      ⟨Body.movieData ⟨1, "new", "d", 7⟩, HTTP_200_OK⟩ ∧
    TagDetailView.patch
        { emptyStore with movies := [⟨1, "t", "d", 7⟩], tags := [⟨4, "horror"⟩] }
        4 { name := none } =
      (⟨Body.errorList ["This field is required."], HTTP_400_BAD_REQUEST⟩,
       { emptyStore with movies := [⟨1, "t", "d", 7⟩], tags := [⟨4, "horror"⟩] }) ∧
    (TagDetailView.patch
        { emptyStore with movies := [⟨1, "t", "d", 7⟩], tags := [⟨4, "horror"⟩] }
        4 { name := some "drama" }).1 =
      ⟨Body.tagData ⟨4, "drama"⟩, HTTP_200_OK⟩ := by
  have h := C6_amended_partial_patch
    { emptyStore with movies := [⟨1, "t", "d", 7⟩], tags := [⟨4, "horror"⟩] } 7
  have hm := h.1 1 { title := some "new" } ⟨1, "t", "d", 7⟩ (by rfl) rfl
  have ht := h.2.2.2 4 ⟨4, "horror"⟩ (by rfl)
  exact ⟨hm.1, ht.1, ht.2 "drama"⟩

/-- C7: the code at the failing input — a watchlist add naming a
collection id (99) that matches no Collection, with an existing movie (1):
the handler never resolves the collection; it answers CREATED and inserts
a Watchlist row referencing the nonexistent collection, instead of the
NOT_FOUND with no row that the spec's missing-target rule requires. -/
theorem C7_watchlist_add_missing_collection :
    findCollection
        { emptyStore with movies := [⟨1, "t", "d", 7⟩], nextId := 5 } 99 = none ∧
    (WatchlistByCollectionView.post
        { emptyStore with movies := [⟨1, "t", "d", 7⟩], nextId := 5 }
        99 (some 1)).1.status = HTTP_201_CREATED ∧
    (WatchlistByCollectionView.post
        { emptyStore with movies := [⟨1, "t", "d", 7⟩], nextId := 5 }
        99 (some 1)).2.watchlists = [⟨5, 99, 1⟩] := by decide

end Movielix
